import Mathlib

/-!
Verification development for the external-tool execution and
result-normalization engine of the forensicWeb repository
(`backend/core/volatility_runner.py` and `backend/core/artifact_processor.py`).

The Python code is shallowly embedded:
* subprocess interaction is modelled by an explicit outcome value
  (`ProcOutcome`) and the on-disk output file by an `Option (List String)`
  (`none` = file missing or unreadable, `some lines` = the list of lines as
  returned by `readlines`, possibly with trailing newline characters, which
  `strip` removes);
* `json.loads` (an external library call) is abstracted as a decoder
  parameter `decode : String → Option J` returning `none` exactly when the
  library would raise `JSONDecodeError`;
* wall-clock datetimes are dropped; elapsed times are passed in as explicit
  rational parameters, and the configured timeout is a natural number of
  seconds, as in the Python `int` configuration value;
* Python strings are Lean `String`s; `str.strip` is `pyStrip`,
  `str.split` is modelled by structurally recursive splitters on the
  character list, `s[:500]` is `truncate 500`, `pattern in s` is substring
  containment on the character lists.
-/

/-- Python `s[:n]`: the first `n` characters of a string. -/
def truncate (n : Nat) (s : String) : String :=
  String.mk (s.data.take n)

/-- Python `s.strip()`: drop leading and trailing whitespace. -/
def pyStrip (s : String) : String :=
  String.mk (((s.data.dropWhile Char.isWhitespace).reverse.dropWhile
    Char.isWhitespace).reverse)

/-- Split a character list on a separator character, keeping empty
segments, as Python `str.split(sep)` does. -/
def splitChar (sep : Char) : List Char → List (List Char)
  | [] => [[]]
  | c :: rest =>
    match splitChar sep rest with
    | [] => [[]]
    | seg :: segs => if c = sep then [] :: seg :: segs else (c :: seg) :: segs

/-- Python `s.split('\n')`. -/
def pyLines (s : String) : List String :=
  (splitChar '\n' s.data).map String.mk

/-- Python `pat in s`: substring containment, as a Bool. -/
def containsSub (s pat : String) : Bool :=
  decide (pat.data <:+: s.data)

/-- Python `s.lower()` (ASCII case folding, which covers every keyword the
code compares against). -/
def strToLower (s : String) : String :=
  String.mk (s.data.map Char.toLower)

/-- `class PluginStatus(str, Enum)` from `volatility_runner.py`. -/
inductive PluginStatus where
  | pending
  | running
  | success
  | failed
  | timeout
deriving DecidableEq, Repr

/-- `@dataclass PluginExecutionResult` from `volatility_runner.py`.
`started_at`/`completed_at` (wall-clock datetimes) are omitted; the elapsed
wall-clock time is a parameter of the execution functions.  `J` is the type
of decoded JSON records. -/
structure PluginExecutionResult (J : Type) where
  plugin_name : String
  status : PluginStatus
  execution_time_seconds : ℚ
  row_count : Nat
  output_json_path : Option String
  parsed_data : Option (List J)
  error_message : Option String
  stderr : Option String
  returncode : Int

/-- Outcome of one subprocess invocation, as observed by the Python
`try`/`except` structure: normal completion with an exit code and captured
stderr text, `subprocess.TimeoutExpired` (carrying the optional partial
stderr the exception exposes), or any other exception with its message. -/
inductive ProcOutcome where
  | completed (returncode : Int) (stderrText : String)
  | timedOut (stderrOpt : Option String)
  | errored (msg : String)

namespace Volatility3Runner

/-- `Volatility3Runner._parse_json_output`: read the JSONL output file,
decode each non-blank stripped line independently, skip lines that fail to
decode, and return `(parsed_data, row_count)`; a missing/unreadable file or
an empty line list yields `(None, 0)`. -/
def parse_json_output {J : Type} (decode : String → Option J)
    (file : Option (List String)) : Option (List J) × Nat :=
  match file with
  | none => (none, 0)
  | some lines =>
    if lines = [] then (none, 0)
    else
      let parsed_rows := lines.filterMap fun line =>
        let l := pyStrip line
        if l = "" then none else decode l
      (some parsed_rows, parsed_rows.length)

/-- The `error_patterns` list of `Volatility3Runner._extract_error_message`. -/
def error_patterns : List String :=
  [ "Unable to validate the plugin requirements"
  , "No such file or directory"
  , "Unable to determine symbol table"
  , "Unsatisfied requirement plugins"
  , "No valid profile found" ]

/-- The list comprehension `[l.strip() for l in stderr.split('\n') if l.strip()]`
of `Volatility3Runner._extract_error_message`. -/
def nonblankLines (stderrText : String) : List String :=
  (pyLines stderrText).filterMap fun l =>
    let t := pyStrip l
    if t = "" then none else some t

/-- `Volatility3Runner._extract_error_message`: empty stderr gives
`"Unknown error"`; if any known pattern occurs anywhere in the text the
whole text truncated to 500 characters is returned (the loop's early return
yields the same value whichever pattern matches first); otherwise the first
non-blank stripped line truncated to 500 characters, or
`"Execution failed"` when there is none. -/
def extract_error_message (stderrText : String) : String :=
  if stderrText = "" then "Unknown error"
  else if error_patterns.any (fun p => containsSub stderrText p) then
    truncate 500 stderrText
  else
    match nonblankLines stderrText with
    | [] => "Execution failed"
    | l :: _ => truncate 500 l

/-- The plugin-name-derived output file name used by both execution paths:
`f"{plugin_name.replace('.', '_')}.json"`. -/
def outputFileName (plugin_name : String) : String :=
  plugin_name.replace "." "_" ++ ".json"

/-- `Volatility3Runner.execute_plugin` (synchronous).  `outcome` is what the
`subprocess.run` call did, `file` the plugin's output file contents
afterwards, `elapsed` the measured wall-clock duration of the non-timeout
branches. -/
def execute_plugin {J : Type} (decode : String → Option J)
    (plugin_name : String) (timeout_seconds : Nat) (outcome : ProcOutcome)
    (file : Option (List String)) (elapsed : ℚ) : PluginExecutionResult J :=
  match outcome with
  | .completed rc stderrText =>
    let pr := parse_json_output decode file
    let ok := rc == 0 && pr.1.isSome
    { plugin_name := plugin_name
      status := if ok then .success else .failed
      execution_time_seconds := elapsed
      row_count := pr.2
      output_json_path := if file.isSome then some (outputFileName plugin_name) else none
      parsed_data := pr.1
      error_message := if ok then none else some (extract_error_message stderrText)
      stderr := if stderrText == "" then none else some stderrText
      returncode := rc }
  | .timedOut stderrOpt =>
    { plugin_name := plugin_name
      status := .timeout
      execution_time_seconds := (timeout_seconds : ℚ)
      row_count := 0
      output_json_path := none
      parsed_data := none
      error_message := some ("Execution timed out after " ++ toString timeout_seconds ++ "s")
      stderr := stderrOpt
      returncode := -1 }
  | .errored msg =>
    { plugin_name := plugin_name
      status := .failed
      execution_time_seconds := elapsed
      row_count := 0
      output_json_path := none
      parsed_data := none
      error_message := some msg
      stderr := none
      returncode := -1 }

/-- `Volatility3Runner.execute_plugin_async`: same shape, but the status is
decided by the exit code alone (`SUCCESS if process.returncode == 0 else
FAILED`), and the timeout branch stores no stderr. -/
def execute_plugin_async {J : Type} (decode : String → Option J)
    (plugin_name : String) (timeout_seconds : Nat) (outcome : ProcOutcome)
    (file : Option (List String)) (elapsed : ℚ) : PluginExecutionResult J :=
  match outcome with
  | .completed rc stderrText =>
    let pr := parse_json_output decode file
    let ok := rc == 0
    { plugin_name := plugin_name
      status := if ok then .success else .failed
      execution_time_seconds := elapsed
      row_count := pr.2
      output_json_path := if file.isSome then some (outputFileName plugin_name) else none
      parsed_data := pr.1
      error_message := if ok then none else some (extract_error_message stderrText)
      stderr := if stderrText == "" then none else some stderrText
      returncode := rc }
  | .timedOut _ =>
    { plugin_name := plugin_name
      status := .timeout
      execution_time_seconds := (timeout_seconds : ℚ)
      row_count := 0
      output_json_path := none
      parsed_data := none
      error_message := some ("Execution timed out after " ++ toString timeout_seconds ++ "s")
      stderr := none
      returncode := -1 }
  | .errored msg =>
    { plugin_name := plugin_name
      status := .failed
      execution_time_seconds := elapsed
      row_count := 0
      output_json_path := none
      parsed_data := none
      error_message := some msg
      stderr := none
      returncode := -1 }

/-- The aggregation loop shared by `Volatility3Runner.execute_plugin_batch`
and `BinwalkAnalyzer.analyze_batch`/`ExiftoolAnalyzer.extract_metadata_batch`:
walk the `asyncio.gather(..., return_exceptions=True)` result list in order;
an exception is logged and skipped, a `(key, result)` pair is written into
the result dictionary (later writes overwrite earlier ones, as in a Python
dict). -/
def dictUpd {κ ρ : Type} [DecidableEq κ] (acc : κ → Option ρ) (k : κ) (r : ρ) :
    κ → Option ρ :=
  fun x => if x = k then some r else acc x

/-- The loop body: fold the gathered items left to right into the dict. -/
def collectFrom {κ ε ρ : Type} [DecidableEq κ] (acc : κ → Option ρ) :
    List (Except ε (κ × ρ)) → (κ → Option ρ)
  | [] => acc
  | .error _ :: rest => collectFrom acc rest
  | .ok (k, r) :: rest => collectFrom (dictUpd acc k r) rest

/-- `Volatility3Runner.execute_plugin_batch` (concurrent path), restricted to
its result aggregation: `items` is the gathered list, in task order, of
either a raised exception or the `(plugin_name, result)` pair a task
returned. -/
def execute_plugin_batch_results {ε ρ : Type} (items : List (Except ε (String × ρ))) :
    String → Option ρ :=
  collectFrom (fun _ => none) items

end Volatility3Runner

/-- `SignatureFinding` record produced by `BinwalkAnalyzer._parse_binwalk_output`
(the dict `{'offset': ..., 'offset_hex': ..., 'description': ...}`). -/
structure SignatureFinding where
  offset : Int
  offset_hex : String
  description : String
deriving DecidableEq, Repr

/-- Python `s.startswith(pre)`. -/
def pyStartsWith (s pre : String) : Bool :=
  pre.data.isPrefixOf s.data

/-- Checker for the digit tail of a Python integer literal: digits with
single underscores allowed only between digits (`int("1_0")` parses,
`int("1__0")` and `int("1_")` do not). -/
def pyDigitsTail : List Char → Bool
  | [] => true
  | '_' :: c :: rest => c.isDigit && pyDigitsTail rest
  | '_' :: [] => false
  | c :: rest => c.isDigit && pyDigitsTail rest

/-- An unsigned Python integer body: at least one digit, then `pyDigitsTail`. -/
def pyIntBody : List Char → Bool
  | [] => false
  | c :: rest => c.isDigit && pyDigitsTail rest

/-- Numeric value of a digit/underscore sequence. -/
def digitsVal (cs : List Char) : Nat :=
  cs.foldl (fun acc c => if c = '_' then acc else acc * 10 + (c.toNat - 48)) 0

/-- Python `int(s)` on a base-10 string: strips surrounding whitespace,
accepts an optional sign, returns `none` exactly when `int` raises
`ValueError` (ASCII digits only). -/
def pyInt (s : String) : Option Int :=
  let cs := ((s.data.dropWhile Char.isWhitespace).reverse.dropWhile
    Char.isWhitespace).reverse
  match cs with
  | '+' :: rest => if pyIntBody rest then some (digitsVal rest : Int) else none
  | '-' :: rest => if pyIntBody rest then some (-(digitsVal rest : Int)) else none
  | rest => if pyIntBody rest then some (digitsVal rest : Int) else none

/-- Python `s.split(None, 2)` on a character list: fields separated by runs
of whitespace, at most two splits, leading whitespace of each field and of
the final remainder skipped, the remainder otherwise kept verbatim. -/
def splitWs2 (cs : List Char) : List (List Char) :=
  let cs0 := cs.dropWhile Char.isWhitespace
  match cs0 with
  | [] => []
  | _ :: _ =>
    let f1 := cs0.takeWhile (fun c => !c.isWhitespace)
    let r1 := (cs0.dropWhile (fun c => !c.isWhitespace)).dropWhile Char.isWhitespace
    match r1 with
    | [] => [f1]
    | _ :: _ =>
      let f2 := r1.takeWhile (fun c => !c.isWhitespace)
      let r2 := (r1.dropWhile (fun c => !c.isWhitespace)).dropWhile Char.isWhitespace
      match r2 with
      | [] => [f1, f2]
      | _ :: _ => [f1, f2, r2]

/-- Outcome of one binwalk/exiftool subprocess invocation: completion with
exit code and captured stdout/stderr text, `asyncio.TimeoutError`, or any
other exception with its message. -/
inductive ToolOutcome where
  | completed (returncode : Int) (stdoutText stderrText : String)
  | timedOut
  | errored (msg : String)

namespace BinwalkAnalyzer

/-- The per-line body of `BinwalkAnalyzer._parse_binwalk_output`: strip the
line, skip empty/`DECIMAL`-header/`---`-separator lines, split into at most
three whitespace-separated parts, and keep the line only when there are
three parts and the first parses as an integer. -/
def parse_lines : List String → List SignatureFinding
  | [] => []
  | line :: rest =>
    let l := pyStrip line
    if l = "" || pyStartsWith l "DECIMAL" || pyStartsWith l "---" then
      parse_lines rest
    else
      match splitWs2 l.data with
      | [p0, p1, p2] =>
        match pyInt (String.mk p0) with
        | some n =>
          { offset := n, offset_hex := String.mk p1,
            description := String.mk p2 } :: parse_lines rest
        | none => parse_lines rest
      | _ => parse_lines rest

/-- `BinwalkAnalyzer._parse_binwalk_output`. -/
def parse_binwalk_output (output : String) : List SignatureFinding :=
  parse_lines (pyLines output)

/-- `@dataclass BinwalkResult` (`analyzed_at` modelled as an abstract clock
value). -/
structure BinwalkResult where
  file_path : String
  analyzed_at : Nat
  success : Bool
  signatures_found : List SignatureFinding
  extracted_files : List String
  error_message : Option String
  execution_time_seconds : ℚ

/-- `BinwalkAnalyzer.analyze_file`.  `binwalk_enabled` is
`settings.BINWALK_ENABLED`; `run` models launching the subprocess and
returns its outcome, the post-run `rglob` listing of regular files under
the extraction directory, and the elapsed wall-clock time.  The disabled
branch returns before `run` is ever consulted. -/
def analyze_file (binwalk_enabled : Bool) (file_path : String) (now : Nat)
    (extract : Bool) (timeout_seconds : Nat)
    (run : Unit → ToolOutcome × List String × ℚ) : BinwalkResult :=
  if !binwalk_enabled then
    { file_path := file_path
      analyzed_at := now
      success := false
      signatures_found := []
      extracted_files := []
      error_message := some "Binwalk is disabled"
      execution_time_seconds := 0 }
  else
    match run () with
    | (.completed rc stdoutText stderrText, listing, elapsed) =>
      { file_path := file_path
        analyzed_at := now
        success := rc == 0
        signatures_found := parse_binwalk_output stdoutText
        extracted_files := if extract then listing else []
        error_message := if rc == 0 then none else some (truncate 500 stderrText)
        execution_time_seconds := elapsed }
    | (.timedOut, _, _) =>
      { file_path := file_path
        analyzed_at := now
        success := false
        signatures_found := []
        extracted_files := []
        error_message := some ("Analysis timed out after " ++ toString timeout_seconds ++ "s")
        execution_time_seconds := (timeout_seconds : ℚ) }
    | (.errored msg, _, elapsed) =>
      { file_path := file_path
        analyzed_at := now
        success := false
        signatures_found := []
        extracted_files := []
        error_message := some msg
        execution_time_seconds := elapsed }

/-- `BinwalkAnalyzer.analyze_batch`, restricted to its result aggregation
over the gathered `(file_path, result)` items (paths modelled as strings). -/
def analyze_batch_results {ε ρ : Type} (items : List (Except ε (String × ρ))) :
    String → Option ρ :=
  Volatility3Runner.collectFrom (fun _ => none) items

end BinwalkAnalyzer

namespace ExiftoolAnalyzer

/-- `@dataclass ExiftoolResult`; `M` is the type of one decoded metadata
object (`json_data[0]`), and `metadata := none` models the empty dict. -/
structure ExiftoolResult (M : Type) where
  file_path : String
  analyzed_at : Nat
  success : Bool
  metadata : Option M
  file_type : Option String
  error_message : Option String
  execution_time_seconds : ℚ

/-- `ExiftoolAnalyzer.extract_metadata`.  `exiftool_enabled` is
`settings.EXIFTOOL_ENABLED`; `decodeArray` abstracts `json.loads` on the
tool's stdout (`none` = `JSONDecodeError` or a non-array value), `getTag`
abstracts `dict.get`, and `run` models launching the subprocess.  The
disabled branch returns before `run` is ever consulted. -/
def extract_metadata {M : Type} (exiftool_enabled : Bool) (file_path : String)
    (now : Nat) (timeout_seconds : Nat)
    (decodeArray : String → Option (List M)) (getTag : M → String → Option String)
    (run : Unit → ToolOutcome × ℚ) : ExiftoolResult M :=
  if !exiftool_enabled then
    { file_path := file_path
      analyzed_at := now
      success := false
      metadata := none
      file_type := none
      error_message := some "Exiftool is disabled"
      execution_time_seconds := 0 }
  else
    match run () with
    | (.completed rc stdoutText stderrText, elapsed) =>
      let md : Option M :=
        if rc == 0 then
          match decodeArray stdoutText with
          | some (m :: _) => some m
          | _ => none
        else none
      let ft : Option String :=
        match md with
        | some m =>
          (match getTag m "FileType" with
           | some v => some v
           | none => getTag m "MIMEType")
        | none => none
      { file_path := file_path
        analyzed_at := now
        success := rc == 0
        metadata := md
        file_type := ft
        error_message := if rc == 0 then none else some (truncate 500 stderrText)
        execution_time_seconds := elapsed }
    | (.timedOut, _) =>
      { file_path := file_path
        analyzed_at := now
        success := false
        metadata := none
        file_type := none
        error_message := some ("Analysis timed out after " ++ toString timeout_seconds ++ "s")
        execution_time_seconds := (timeout_seconds : ℚ) }
    | (.errored msg, elapsed) =>
      { file_path := file_path
        analyzed_at := now
        success := false
        metadata := none
        file_type := none
        error_message := some msg
        execution_time_seconds := elapsed }

end ExiftoolAnalyzer

namespace ProfileDetector

/-- The dictionary returned by `ProfileDetector.detect_profile`. -/
structure ProfileDetectionResult where
  os : String
  profile : String
  confidence : ℚ
  method : String
deriving DecidableEq, Repr

/-- `ProfileDetector._parse_banners_output`: ordered keyword membership on
the lower-cased banner stdout. -/
def parse_banners_output (output : String) : String :=
  let output_lower := strToLower output
  if containsSub output_lower "windows" || containsSub output_lower "microsoft" then
    "Windows"
  else if containsSub output_lower "linux" then "Linux"
  else if containsSub output_lower "darwin" || containsSub output_lower "macos" then
    "macOS"
  else "Unknown"

/-- `ProfileDetector.detect_profile`: the banner invocation either produced
a decoded stdout (`Except.ok`) or raised (`Except.error`, the caught
exception's message); the latter is the fallback branch. -/
def detect_profile (invocation : Except String String) : ProfileDetectionResult :=
  match invocation with
  | .ok stdoutText =>
    let os_type := parse_banners_output stdoutText
    { os := os_type
      profile := "auto"
      confidence := if os_type ≠ "Unknown" then 8/10 else 3/10
      method := "banners" }
  | .error _ =>
    { os := "Unknown"
      profile := "auto"
      confidence := 0
      method := "fallback" }

end ProfileDetector

section Helpers

/-- The number of kept elements of a `filterMap` is the number of inputs the
function succeeds on. -/
theorem length_filterMap_eq_countP {α β : Type} (f : α → Option β) (l : List α) :
    (l.filterMap f).length = l.countP fun a => (f a).isSome := by
  induction l with
  | nil => rfl
  | cons a l ih =>
    by_cases h : (f a).isSome
    · obtain ⟨b, hb⟩ := Option.isSome_iff_exists.1 h
      simp [List.filterMap_cons, hb, List.countP_cons, ih, h]
    · simp only [Option.not_isSome_iff_eq_none] at h
      simp [List.filterMap_cons, h, List.countP_cons, ih]

/-- The batch dictionary holds a key exactly when some gathered item
returned a pair with that key, or the key was already in the accumulator. -/
theorem collectFrom_isSome {κ ε ρ : Type} [DecidableEq κ]
    (items : List (Except ε (κ × ρ))) (acc : κ → Option ρ) (k : κ) :
    (Volatility3Runner.collectFrom acc items k).isSome ↔
      (∃ r, Except.ok (k, r) ∈ items) ∨ (acc k).isSome := by
  induction items generalizing acc with
  | nil => simp [Volatility3Runner.collectFrom]
  | cons item rest ih =>
    match item with
    | .error e => simp [Volatility3Runner.collectFrom, ih]
    | .ok (k', r') =>
      by_cases hk : k = k'
      · subst hk
        simp [Volatility3Runner.collectFrom, ih, Volatility3Runner.dictUpd]
      · simp [Volatility3Runner.collectFrom, ih, Volatility3Runner.dictUpd, hk,
          Prod.ext_iff]

/-- Every value in the batch dictionary comes from a gathered item that
returned it (or was already in the accumulator). -/
theorem collectFrom_mem {κ ε ρ : Type} [DecidableEq κ]
    (items : List (Except ε (κ × ρ))) (acc : κ → Option ρ) (k : κ) (r : ρ) :
    Volatility3Runner.collectFrom acc items k = some r →
      Except.ok (k, r) ∈ items ∨ acc k = some r := by
  induction items generalizing acc with
  | nil => exact fun h => Or.inr h
  | cons item rest ih =>
    match item with
    | .error e =>
      intro h
      rcases ih _ h with h' | h'
      · exact Or.inl (List.mem_cons_of_mem _ h')
      · exact Or.inr h'
    | .ok (k', r') =>
      intro h
      rcases ih _ h with h' | h'
      · exact Or.inl (List.mem_cons_of_mem _ h')
      · unfold Volatility3Runner.dictUpd at h'
        by_cases hk : k = k'
        · subst hk
          simp at h'
          exact Or.inl (by simp [h'])
        · rw [if_neg hk] at h'
          exact Or.inr h'

end Helpers

/-- C2: every plugin execution that ends in a timeout, synchronous or
asynchronous, yields status Timeout with `parsed_data` absent,
`execution_time_seconds` exactly equal to the configured timeout, and the
`-1` sentinel exit code. -/
theorem C2_timeout_fields {J : Type} (decode : String → Option J)
    (plugin_name : String) (timeout_seconds : Nat) (stderrOpt : Option String)
    (file : Option (List String)) (elapsed : ℚ) :
    ((Volatility3Runner.execute_plugin decode plugin_name timeout_seconds
        (.timedOut stderrOpt) file elapsed).status = .timeout ∧
     (Volatility3Runner.execute_plugin decode plugin_name timeout_seconds
        (.timedOut stderrOpt) file elapsed).parsed_data = none ∧
     (Volatility3Runner.execute_plugin decode plugin_name timeout_seconds
        (.timedOut stderrOpt) file elapsed).execution_time_seconds = (timeout_seconds : ℚ) ∧
     (Volatility3Runner.execute_plugin decode plugin_name timeout_seconds
        (.timedOut stderrOpt) file elapsed).returncode = -1) ∧
    ((Volatility3Runner.execute_plugin_async decode plugin_name timeout_seconds
        (.timedOut stderrOpt) file elapsed).status = .timeout ∧
     (Volatility3Runner.execute_plugin_async decode plugin_name timeout_seconds
        (.timedOut stderrOpt) file elapsed).parsed_data = none ∧
     (Volatility3Runner.execute_plugin_async decode plugin_name timeout_seconds
        (.timedOut stderrOpt) file elapsed).execution_time_seconds = (timeout_seconds : ℚ) ∧
     (Volatility3Runner.execute_plugin_async decode plugin_name timeout_seconds
        (.timedOut stderrOpt) file elapsed).returncode = -1) :=
  ⟨⟨rfl, rfl, rfl, rfl⟩, ⟨rfl, rfl, rfl, rfl⟩⟩

/-- C10: a synchronous execution whose process exits 0 but whose output file
is missing or has zero lines gets `(None, 0)` from the JSONL parser and is
classified Failed with absent `parsed_data`, exactly like a parse failure. -/
theorem C10_empty_output_failed {J : Type} (decode : String → Option J)
    (plugin_name : String) (timeout_seconds : Nat) (stderrText : String)
    (elapsed : ℚ) :
    (Volatility3Runner.parse_json_output decode (none : Option (List String)) = (none, 0)) ∧
    (Volatility3Runner.parse_json_output decode (some ([] : List String)) = (none, 0)) ∧
    ((Volatility3Runner.execute_plugin decode plugin_name timeout_seconds
        (.completed 0 stderrText) none elapsed).status = .failed) ∧
    ((Volatility3Runner.execute_plugin decode plugin_name timeout_seconds
        (.completed 0 stderrText) none elapsed).parsed_data = none) ∧
    ((Volatility3Runner.execute_plugin decode plugin_name timeout_seconds
        (.completed 0 stderrText) (some []) elapsed).status = .failed) ∧
    ((Volatility3Runner.execute_plugin decode plugin_name timeout_seconds
        (.completed 0 stderrText) (some []) elapsed).parsed_data = none) :=
  ⟨rfl, rfl, rfl, rfl, rfl, rfl⟩

/-- C9: when disabled by configuration, `BinwalkAnalyzer.analyze_file` and
`ExiftoolAnalyzer.extract_metadata` return immediately with an unsuccessful
result whose error message states the tool is disabled and whose elapsed
time is exactly 0, and the result does not depend on the subprocess oracle
at all (no subprocess is launched on that path). -/
theorem C9_disabled_short_circuit {M : Type} (file_path : String) (now : Nat)
    (extract : Bool) (timeout_seconds : Nat)
    (run₁ run₂ : Unit → ToolOutcome × List String × ℚ)
    (decodeArray : String → Option (List M)) (getTag : M → String → Option String)
    (erun₁ erun₂ : Unit → ToolOutcome × ℚ) :
    (BinwalkAnalyzer.analyze_file false file_path now extract timeout_seconds run₁ =
      { file_path := file_path, analyzed_at := now, success := false,
        signatures_found := [], extracted_files := [],
        error_message := some "Binwalk is disabled",
        execution_time_seconds := 0 }) ∧
    (BinwalkAnalyzer.analyze_file false file_path now extract timeout_seconds run₁ =
      BinwalkAnalyzer.analyze_file false file_path now extract timeout_seconds run₂) ∧
    (ExiftoolAnalyzer.extract_metadata false file_path now timeout_seconds
        decodeArray getTag erun₁ =
      { file_path := file_path, analyzed_at := now, success := false,
        metadata := none, file_type := none,
        error_message := some "Exiftool is disabled",
        execution_time_seconds := 0 }) ∧
    (ExiftoolAnalyzer.extract_metadata false file_path now timeout_seconds
        decodeArray getTag erun₁ =
      ExiftoolAnalyzer.extract_metadata false file_path now timeout_seconds
        decodeArray getTag erun₂) :=
  ⟨rfl, rfl, rfl, rfl⟩

/-- C8: in both batch schedulers, a gathered item that raised an exception
contributes nothing to the result mapping, while a key is present exactly
when some item returned a `(key, result)` pair, and any stored value was
actually returned by an item with that key. -/
theorem C8_batch_drops_exceptions {ε ρ : Type}
    (items : List (Except ε (String × ρ))) (k : String) :
    ((Volatility3Runner.execute_plugin_batch_results items k).isSome ↔
      ∃ r, Except.ok (k, r) ∈ items) ∧
    (∀ r, Volatility3Runner.execute_plugin_batch_results items k = some r →
      Except.ok (k, r) ∈ items) ∧
    ((BinwalkAnalyzer.analyze_batch_results items k).isSome ↔
      ∃ r, Except.ok (k, r) ∈ items) ∧
    (∀ r, BinwalkAnalyzer.analyze_batch_results items k = some r →
      Except.ok (k, r) ∈ items) := by
  refine ⟨?_, ?_, ?_, ?_⟩
  · simpa using collectFrom_isSome items (fun _ => none) k
  · intro r h
    rcases collectFrom_mem items (fun _ => none) k r h with h' | h'
    · exact h'
    · cases h'
  · simpa using collectFrom_isSome items (fun _ => none) k
  · intro r h
    rcases collectFrom_mem items (fun _ => none) k r h with h' | h'
    · exact h'
    · cases h'

/-- Witness for C8 at a concrete gathered list: the raised item's key is
absent, the returned item appears under its own key. -/
theorem C8_batch_drops_exceptions_witness :
    Volatility3Runner.execute_plugin_batch_results (ε := String)
      [Except.error "boom", Except.ok ("a", 1)] "a" = some 1 ∧
    ¬ (Volatility3Runner.execute_plugin_batch_results (ε := String) (ρ := Nat)
      [Except.error "boom", Except.ok ("a", 1)] "b").isSome := by
  constructor
  · have h := (C8_batch_drops_exceptions (ε := String) (ρ := Nat)
      [Except.error "boom", Except.ok ("a", 1)] "a").1.mpr
      ⟨1, List.mem_cons_of_mem _ (List.mem_cons_self _ _)⟩
    revert h
    decide
  · intro h
    have h' := (C8_batch_drops_exceptions (ε := String) (ρ := Nat)
      [Except.error "boom", Except.ok ("a", 1)] "b").1.mp h
    rcases h' with ⟨r, hr⟩
    simp [Prod.ext_iff] at hr

/-- C4: an output file whose lines are all non-blank, K of them decoding and
M failing to decode (K + M ≥ 1), parses to the present sequence of exactly
the K decoded records in order, with `record_count = K` and no error. -/
theorem C4_jsonl_roundtrip {J : Type} (decode : String → Option J)
    (lines : List String) (hne : lines ≠ [])
    (hnb : ∀ l ∈ lines, pyStrip l ≠ "") :
    Volatility3Runner.parse_json_output decode (some lines) =
      (some (lines.filterMap fun l => decode (pyStrip l)),
       lines.countP fun l => (decode (pyStrip l)).isSome) := by
  simp only [Volatility3Runner.parse_json_output]
  rw [if_neg hne]
  have hmap : (lines.filterMap fun line =>
      let l := pyStrip line
      if l = "" then none else decode l) =
      lines.filterMap fun l => decode (pyStrip l) :=
    List.filterMap_congr fun x hx => by
      simp only [if_neg (hnb x hx)]
  simp only [hmap, length_filterMap_eq_countP]

/-- Witness for C4 at a concrete two-line file: one decoding line, one
malformed line, giving one record and `record_count = 1`. -/
theorem C4_jsonl_roundtrip_witness :
    Volatility3Runner.parse_json_output
      (fun s => if s = "1" then some 1 else none) (some ["1\n", "oops"]) =
      (some [1], 1) := by
  have h := C4_jsonl_roundtrip (fun s => if s = "1" then some 1 else none)
    ["1\n", "oops"] (by decide) (by decide)
  exact h.trans (by decide)

section TruncateLength

/-- Truncation really bounds the length. -/
theorem length_truncate_le (n : Nat) (s : String) : (truncate n s).length ≤ n := by
  rw [truncate, String.length_mk, List.length_take]
  exact Nat.min_le_left _ _

end TruncateLength

/-- C1 counterexample: an asynchronous execution whose process exited 0 but
whose output file is missing is assigned status Success with `parsed_data`
absent, so the claimed invariant fails for `execute_plugin_async`. -/
theorem C1_success_counterexample :
    (Volatility3Runner.execute_plugin_async (J := Nat) (fun _ => none)
      "windows.pslist" 300 (.completed 0 "err") none 1).status = .success ∧
    (Volatility3Runner.execute_plugin_async (J := Nat) (fun _ => none)
      "windows.pslist" 300 (.completed 0 "err") none 1).parsed_data = none :=
  ⟨rfl, rfl⟩

/-- C1 amended: for the synchronous `execute_plugin`, Success is assigned
iff the exit code is 0 and parsing returned a non-absent sequence, and a
Success result has `parsed_data` present and `error_message` absent; for
the asynchronous `execute_plugin_async`, Success is assigned iff the exit
code is 0 (regardless of parsing), and a Success result has
`error_message` absent but may have `parsed_data` absent. -/
theorem C1_success_iff {J : Type} (decode : String → Option J)
    (plugin_name : String) (timeout_seconds : Nat) (rc : Int)
    (stderrText : String) (file : Option (List String)) (elapsed : ℚ) :
    ((Volatility3Runner.execute_plugin decode plugin_name timeout_seconds
        (.completed rc stderrText) file elapsed).status = .success ↔
      rc = 0 ∧ (Volatility3Runner.parse_json_output decode file).1.isSome = true) ∧
    ((Volatility3Runner.execute_plugin decode plugin_name timeout_seconds
        (.completed rc stderrText) file elapsed).status = .success →
      (Volatility3Runner.execute_plugin decode plugin_name timeout_seconds
        (.completed rc stderrText) file elapsed).parsed_data.isSome = true ∧
      (Volatility3Runner.execute_plugin decode plugin_name timeout_seconds
        (.completed rc stderrText) file elapsed).error_message = none) ∧
    ((Volatility3Runner.execute_plugin_async decode plugin_name timeout_seconds
        (.completed rc stderrText) file elapsed).status = .success ↔ rc = 0) ∧
    ((Volatility3Runner.execute_plugin_async decode plugin_name timeout_seconds
        (.completed rc stderrText) file elapsed).status = .success →
      (Volatility3Runner.execute_plugin_async decode plugin_name timeout_seconds
        (.completed rc stderrText) file elapsed).error_message = none) := by
  refine ⟨?_, ?_, ?_, ?_⟩
  · cases hok : (rc == 0 && (Volatility3Runner.parse_json_output decode file).1.isSome) with
    | true =>
      have h := hok
      rw [Bool.and_eq_true, beq_iff_eq] at h
      simp [Volatility3Runner.execute_plugin, hok, h.1, h.2]
    | false =>
      simp only [Volatility3Runner.execute_plugin, hok, Bool.false_eq_true, if_false]
      constructor
      · intro hs
        exact absurd hs (by decide)
      · rintro ⟨h1, h2⟩
        subst h1
        simp [h2] at hok
  · intro hs
    cases hok : (rc == 0 && (Volatility3Runner.parse_json_output decode file).1.isSome) with
    | false =>
      simp only [Volatility3Runner.execute_plugin, hok, Bool.false_eq_true, if_false] at hs
      exact absurd hs (by decide)
    | true =>
      have h := hok
      rw [Bool.and_eq_true] at h
      simp only [Volatility3Runner.execute_plugin, hok, if_true]
      exact ⟨h.2, trivial⟩
  · cases hok : (rc == 0 : Bool) with
    | true =>
      have h := hok
      rw [beq_iff_eq] at h
      simp [Volatility3Runner.execute_plugin_async, hok, h]
    | false =>
      simp only [Volatility3Runner.execute_plugin_async, hok, Bool.false_eq_true, if_false]
      constructor
      · intro hs
        exact absurd hs (by decide)
      · intro h1
        subst h1
        simp at hok
  · intro hs
    cases hok : (rc == 0 : Bool) with
    | false =>
      simp only [Volatility3Runner.execute_plugin_async, hok, Bool.false_eq_true, if_false] at hs
      exact absurd hs (by decide)
    | true =>
      simp only [Volatility3Runner.execute_plugin_async, hok, if_true]

/-- Witness for C1 at a concrete successful synchronous execution. -/
theorem C1_success_iff_witness :
    (Volatility3Runner.execute_plugin (fun _ => some (0 : Nat)) "p" 10
      (.completed 0 "") (some ["x"]) 1).parsed_data.isSome = true ∧
    (Volatility3Runner.execute_plugin (fun _ => some (0 : Nat)) "p" 10
      (.completed 0 "") (some ["x"]) 1).error_message = none := by
  have h := C1_success_iff (fun _ => some (0 : Nat)) "p" 10 0 "" (some ["x"]) 1
  exact h.2.1 (h.1.mpr ⟨rfl, by decide⟩)

set_option maxRecDepth 10000

/-- A 501-character stderr text. -/
def longStderr : String := String.mk (List.replicate 501 'a')

/-- C3 counterexample: the stored raw stderr of an execution whose process
wrote 501 characters to stderr has length 501, so the stored field is not
truncated to at most 500 characters. -/
theorem C3_stderr_counterexample :
    500 < ((Volatility3Runner.execute_plugin (J := Nat) (fun _ => none) "p" 10
      (.completed 1 longStderr) none 1).stderr.getD "").length := by decide

/-- C3 amended: the raw `stderr` field of both execution paths stores the
full captured stderr untruncated (absent when it is empty); the
500-character truncation applies to the derived `error_message`, every
output of `extract_error_message` being at most 500 characters long. -/
theorem C3_stderr_untruncated {J : Type} (decode : String → Option J)
    (plugin_name : String) (timeout_seconds : Nat) (rc : Int)
    (stderrText : String) (file : Option (List String)) (elapsed : ℚ) :
    (stderrText ≠ "" →
      (Volatility3Runner.execute_plugin decode plugin_name timeout_seconds
        (.completed rc stderrText) file elapsed).stderr = some stderrText ∧
      (Volatility3Runner.execute_plugin_async decode plugin_name timeout_seconds
        (.completed rc stderrText) file elapsed).stderr = some stderrText) ∧
    (stderrText = "" →
      (Volatility3Runner.execute_plugin decode plugin_name timeout_seconds
        (.completed rc stderrText) file elapsed).stderr = none ∧
      (Volatility3Runner.execute_plugin_async decode plugin_name timeout_seconds
        (.completed rc stderrText) file elapsed).stderr = none) ∧
    (∀ s : String, (Volatility3Runner.extract_error_message s).length ≤ 500) := by
  refine ⟨?_, ?_, ?_⟩
  · intro hne
    have hb : (stderrText == "") = false := beq_eq_false_iff_ne.2 hne
    constructor
    · simp [Volatility3Runner.execute_plugin, hb]
    · simp [Volatility3Runner.execute_plugin_async, hb]
  · intro heq
    subst heq
    constructor
    · simp [Volatility3Runner.execute_plugin]
    · simp [Volatility3Runner.execute_plugin_async]
  · intro s
    unfold Volatility3Runner.extract_error_message
    by_cases h1 : s = ""
    · rw [if_pos h1]
      decide
    · rw [if_neg h1]
      by_cases h2 : (Volatility3Runner.error_patterns.any fun p => containsSub s p) = true
      · rw [if_pos h2]
        exact length_truncate_le 500 s
      · rw [if_neg h2]
        cases hls : Volatility3Runner.nonblankLines s with
        | nil => decide
        | cons l rest => exact length_truncate_le 500 l

/-- Witness for C3 at the concrete 501-character stderr. -/
theorem C3_stderr_untruncated_witness :
    (Volatility3Runner.execute_plugin (J := Nat) (fun _ => none) "p" 10
      (.completed 1 longStderr) none 1).stderr = some longStderr := by
  have h := C3_stderr_untruncated (J := Nat) (fun _ => none) "p" 10 1 longStderr none 1
  exact (h.1 (by decide)).1

/-- C5: error-message extraction returns the whole stderr truncated to 500
characters when any known diagnostic substring occurs anywhere in it; with
no such substring, the first non-blank line stripped and truncated to 500
characters; `"Execution failed"` when a non-empty stderr has no non-blank
line; and `"Unknown error"` when stderr is empty/absent. -/
theorem C5_error_extraction :
    (Volatility3Runner.extract_error_message "" = "Unknown error") ∧
    (∀ s : String, s ≠ "" →
      (∃ p ∈ Volatility3Runner.error_patterns, p.data <:+: s.data) →
      Volatility3Runner.extract_error_message s = truncate 500 s) ∧
    (∀ s : String, s ≠ "" →
      (∀ p ∈ Volatility3Runner.error_patterns, ¬ p.data <:+: s.data) →
      ∀ pre l post, pyLines s = pre ++ l :: post →
        (∀ l' ∈ pre, pyStrip l' = "") → pyStrip l ≠ "" →
        Volatility3Runner.extract_error_message s = truncate 500 (pyStrip l)) ∧
    (∀ s : String, s ≠ "" →
      (∀ p ∈ Volatility3Runner.error_patterns, ¬ p.data <:+: s.data) →
      (∀ l ∈ pyLines s, pyStrip l = "") →
      Volatility3Runner.extract_error_message s = "Execution failed") := by
  refine ⟨rfl, ?_, ?_, ?_⟩
  · intro s hs hp
    obtain ⟨p, hpmem, hpinf⟩ := hp
    have hany : (Volatility3Runner.error_patterns.any fun p => containsSub s p) = true :=
      List.any_eq_true.2 ⟨p, hpmem, decide_eq_true hpinf⟩
    unfold Volatility3Runner.extract_error_message
    rw [if_neg hs, if_pos hany]
  · intro s hs hnp pre l post hsplit hpre hl
    have hany : ¬ (Volatility3Runner.error_patterns.any fun p => containsSub s p) = true := by
      simp only [List.any_eq_true, not_exists]
      intro p hp
      exact absurd (of_decide_eq_true hp.2) (hnp p hp.1)
    have hlines : Volatility3Runner.nonblankLines s =
        pyStrip l :: post.filterMap fun x =>
          let t := pyStrip x
          if t = "" then none else some t := by
      unfold Volatility3Runner.nonblankLines
      rw [hsplit, List.filterMap_append, List.filterMap_cons]
      have hpre' : (pre.filterMap fun x =>
          let t := pyStrip x
          if t = "" then none else some t) = [] :=
        List.filterMap_eq_nil_iff.2 fun x hx => by simp [hpre x hx]
      simp only [hpre', List.nil_append, if_neg hl]
    unfold Volatility3Runner.extract_error_message
    rw [if_neg hs, if_neg hany, hlines]
  · intro s hs hnp hblank
    have hany : ¬ (Volatility3Runner.error_patterns.any fun p => containsSub s p) = true := by
      simp only [List.any_eq_true, not_exists]
      intro p hp
      exact absurd (of_decide_eq_true hp.2) (hnp p hp.1)
    have hlines : Volatility3Runner.nonblankLines s = [] :=
      List.filterMap_eq_nil_iff.2 fun x hx => by simp [hblank x hx]
    unfold Volatility3Runner.extract_error_message
    rw [if_neg hs, if_neg hany, hlines]

/-- Witness for C5 at concrete stderr texts: a known pattern, a plain first
line, an all-blank text, and the empty text. -/
theorem C5_error_extraction_witness :
    Volatility3Runner.extract_error_message "No valid profile found" =
      truncate 500 "No valid profile found" ∧
    Volatility3Runner.extract_error_message " \n  first line \nz" =
      truncate 500 "first line" ∧
    Volatility3Runner.extract_error_message " \n\t\n" = "Execution failed" := by
  refine ⟨?_, ?_, ?_⟩
  · exact C5_error_extraction.2.1 "No valid profile found" (by decide)
      ⟨"No valid profile found", by decide, by decide⟩
  · have h := C5_error_extraction.2.2.1 " \n  first line \nz" (by decide) (by decide)
      [" "] "  first line " ["z"] (by decide) (by decide) (by decide)
    exact h.trans (by decide)
  · exact C5_error_extraction.2.2.2 " \n\t\n" (by decide) (by decide) (by decide)

/-- C6: the signature-table parser skips blank lines, `DECIMAL` header
lines, `---` separator lines, lines with fewer than three
whitespace-separated fields, and lines whose first field is not an integer;
every other line contributes exactly one finding, with the first field
parsed as the integer offset, the second field as the hex offset and the
remainder as the description, in input-line order; and the concrete
three-line example yields exactly one finding. -/
theorem C6_signature_parsing :
    (∀ line rest, pyStrip line = "" →
      BinwalkAnalyzer.parse_lines (line :: rest) = BinwalkAnalyzer.parse_lines rest) ∧
    (∀ line rest, pyStartsWith (pyStrip line) "DECIMAL" = true →
      BinwalkAnalyzer.parse_lines (line :: rest) = BinwalkAnalyzer.parse_lines rest) ∧
    (∀ line rest, pyStartsWith (pyStrip line) "---" = true →
      BinwalkAnalyzer.parse_lines (line :: rest) = BinwalkAnalyzer.parse_lines rest) ∧
    (∀ line rest, (splitWs2 (pyStrip line).data).length < 3 →
      BinwalkAnalyzer.parse_lines (line :: rest) = BinwalkAnalyzer.parse_lines rest) ∧
    (∀ line rest p0 p1 p2, splitWs2 (pyStrip line).data = [p0, p1, p2] →
      pyInt (String.mk p0) = none →
      BinwalkAnalyzer.parse_lines (line :: rest) = BinwalkAnalyzer.parse_lines rest) ∧
    (∀ line rest p0 p1 p2 n, pyStrip line ≠ "" →
      pyStartsWith (pyStrip line) "DECIMAL" = false →
      pyStartsWith (pyStrip line) "---" = false →
      splitWs2 (pyStrip line).data = [p0, p1, p2] →
      pyInt (String.mk p0) = some n →
      BinwalkAnalyzer.parse_lines (line :: rest) =
        { offset := n, offset_hex := String.mk p1, description := String.mk p2 }
          :: BinwalkAnalyzer.parse_lines rest) ∧
    (BinwalkAnalyzer.parse_binwalk_output
        "0   0x0   PNG image, 1920 x 1080\nDECIMAL  HEXADECIMAL  DESCRIPTION\n--------" =
      [{ offset := 0, offset_hex := "0x0", description := "PNG image, 1920 x 1080" }]) := by
  refine ⟨?_, ?_, ?_, ?_, ?_, ?_, by decide⟩
  · intro line rest h
    simp [BinwalkAnalyzer.parse_lines, h]
  · intro line rest h
    simp [BinwalkAnalyzer.parse_lines, h]
  · intro line rest h
    simp [BinwalkAnalyzer.parse_lines, h]
  · intro line rest hlen
    simp only [BinwalkAnalyzer.parse_lines]
    split
    · rfl
    · split
      · rename_i heq
        rw [heq] at hlen
        simp at hlen
      · rfl
  · intro line rest p0 p1 p2 hsplit hint
    simp only [BinwalkAnalyzer.parse_lines]
    split
    · rfl
    · simp only [hsplit, hint]
  · intro line rest p0 p1 p2 n hne hd hh hsplit hint
    simp only [BinwalkAnalyzer.parse_lines]
    split
    · rename_i hg
      simp [hne, hd, hh] at hg
    · simp only [hsplit, hint]

/-- Witness for C6 at the concrete PNG signature line. -/
theorem C6_signature_parsing_witness :
    BinwalkAnalyzer.parse_lines ["0   0x0   PNG image, 1920 x 1080"] =
      [{ offset := 0, offset_hex := "0x0", description := "PNG image, 1920 x 1080" }] := by
  have h := C6_signature_parsing.2.2.2.2.2.1 "0   0x0   PNG image, 1920 x 1080" []
    "0".data "0x0".data "PNG image, 1920 x 1080".data 0
    (by decide) (by decide) (by decide) (by decide) (by decide)
  exact h

/-- C7: profile detection classifies the lower-cased banner stdout by
ordered keyword membership (`windows`/`microsoft`, else `linux`, else
`darwin`/`macos`, else Unknown) with confidence 0.8 for a recognized
category and 0.3 for Unknown, and a raised banner invocation yields
Unknown with confidence 0.0 and method `fallback` instead of propagating. -/
theorem C7_profile_detection :
    (∀ out : String,
      ("windows".data <:+: (strToLower out).data ∨
        "microsoft".data <:+: (strToLower out).data) →
      ProfileDetector.detect_profile (.ok out) =
        { os := "Windows", profile := "auto", confidence := 8/10, method := "banners" }) ∧
    (∀ out : String,
      ¬ ("windows".data <:+: (strToLower out).data ∨
        "microsoft".data <:+: (strToLower out).data) →
      "linux".data <:+: (strToLower out).data →
      ProfileDetector.detect_profile (.ok out) =
        { os := "Linux", profile := "auto", confidence := 8/10, method := "banners" }) ∧
    (∀ out : String,
      ¬ ("windows".data <:+: (strToLower out).data ∨
        "microsoft".data <:+: (strToLower out).data) →
      ¬ "linux".data <:+: (strToLower out).data →
      ("darwin".data <:+: (strToLower out).data ∨
        "macos".data <:+: (strToLower out).data) →
      ProfileDetector.detect_profile (.ok out) =
        { os := "macOS", profile := "auto", confidence := 8/10, method := "banners" }) ∧
    (∀ out : String,
      ¬ ("windows".data <:+: (strToLower out).data ∨
        "microsoft".data <:+: (strToLower out).data) →
      ¬ "linux".data <:+: (strToLower out).data →
      ¬ ("darwin".data <:+: (strToLower out).data ∨
        "macos".data <:+: (strToLower out).data) →
      ProfileDetector.detect_profile (.ok out) =
        { os := "Unknown", profile := "auto", confidence := 3/10, method := "banners" }) ∧
    (∀ e : String,
      ProfileDetector.detect_profile (.error e) =
        { os := "Unknown", profile := "auto", confidence := 0, method := "fallback" }) := by
  refine ⟨?_, ?_, ?_, ?_, fun e => rfl⟩
  · intro out hw
    have hc : (containsSub (strToLower out) "windows" ||
        containsSub (strToLower out) "microsoft") = true := by
      rcases hw with h | h
      · exact Bool.or_eq_true_iff.2 (Or.inl (decide_eq_true h))
      · exact Bool.or_eq_true_iff.2 (Or.inr (decide_eq_true h))
    simp [ProfileDetector.detect_profile, ProfileDetector.parse_banners_output, hc]
  · intro out hnw hl
    push_neg at hnw
    have hc1 : ¬ (containsSub (strToLower out) "windows" ||
        containsSub (strToLower out) "microsoft") = true := by
      simp [containsSub, hnw.1, hnw.2]
    have hc2 : containsSub (strToLower out) "linux" = true := decide_eq_true hl
    simp [ProfileDetector.detect_profile, ProfileDetector.parse_banners_output, hc1, hc2]
  · intro out hnw hnl hm
    push_neg at hnw
    have hc1 : ¬ (containsSub (strToLower out) "windows" ||
        containsSub (strToLower out) "microsoft") = true := by
      simp [containsSub, hnw.1, hnw.2]
    have hc2 : ¬ containsSub (strToLower out) "linux" = true := by
      simp [containsSub, hnl]
    have hc3 : (containsSub (strToLower out) "darwin" ||
        containsSub (strToLower out) "macos") = true := by
      rcases hm with h | h
      · exact Bool.or_eq_true_iff.2 (Or.inl (decide_eq_true h))
      · exact Bool.or_eq_true_iff.2 (Or.inr (decide_eq_true h))
    simp [ProfileDetector.detect_profile, ProfileDetector.parse_banners_output, hc1, hc2, hc3]
  · intro out hnw hnl hnm
    push_neg at hnw
    push_neg at hnm
    have hc1 : ¬ (containsSub (strToLower out) "windows" ||
        containsSub (strToLower out) "microsoft") = true := by
      simp [containsSub, hnw.1, hnw.2]
    have hc2 : ¬ containsSub (strToLower out) "linux" = true := by
      simp [containsSub, hnl]
    have hc3 : ¬ (containsSub (strToLower out) "darwin" ||
        containsSub (strToLower out) "macos") = true := by
      simp [containsSub, hnm.1, hnm.2]
    simp [ProfileDetector.detect_profile, ProfileDetector.parse_banners_output, hc1, hc2, hc3]

/-- Witness for C7 at a Windows banner and a raised invocation. -/
theorem C7_profile_detection_witness :
    ProfileDetector.detect_profile (.ok "Microsoft Windows") =
      { os := "Windows", profile := "auto", confidence := 8/10, method := "banners" } ∧
    ProfileDetector.detect_profile (.error "boom") =
      { os := "Unknown", profile := "auto", confidence := 0, method := "fallback" } :=
  ⟨C7_profile_detection.1 "Microsoft Windows" (Or.inr (by decide)),
   C7_profile_detection.2.2.2.2 "boom"⟩
